import Mathlib

/-!
Verification of the Music-Separation-as-a-Service repository.

The definitions below are a shallow embedding of the two Python source
files `src/rest/rest-server.py` and `src/worker/worker.py`:

* the Redis list at key `toWorker` is a Lean `List`, with `lpush`
  inserting at the head (Redis LPUSH) and `blpop` removing at the head
  (Redis BLPOP);
* MinIO buckets are association lists from object name to byte content;
* a byte is a natural number below 256 and a byte string is `List Nat`;
* `hashlib.sha256(...).hexdigest()` is implemented in full (FIPS 180-4)
  over `List Nat`, with 32-bit words represented as `Nat` reduced
  modulo `2 ^ 32`;
* the side effects of an HTTP handler and of the worker pipeline are
  returned as explicit traces (`RestEffect`, `WEffect`); logging
  (`log_info` / `log_debug`) is not modelled, as no property concerns
  the log channel;
* the external world seen by the worker (MinIO availability, the demucs
  subprocess exit status, `glob.glob`, `os.path.exists`) is an explicit
  environment of response functions (`WorkerEnv`).
-/

/-! ### The shared Redis list

`rest-server.py` line 79 produces with `redisClient.lpush('toWorker', ...)`
and `worker.py` line 218 consumes with `redisClient.blpop('toWorker', timeout=0)`.
-/

/-- Redis LPUSH on the list stored at one key: the new element is
inserted at the head (left end) of the list. -/
def lpush {α : Type} (x : α) (l : List α) : List α := x :: l

/-- Redis BLPOP (with `timeout=0`) once an element is available: it
removes and returns the element at the head (left end) of the list.
On an empty list BLPOP blocks indefinitely, modelled as `none`. -/
def blpop {α : Type} : List α → Option (α × List α)
  | [] => none
  | x :: xs => some (x, xs)

/-- The queue contents after a producer enqueues the elements of `xs`,
in submission order, on top of a starting queue `q`, each via `lpush`
(`rest-server.py` line 79). -/
def enqueue_all {α : Type} (xs : List α) (q : List α) : List α :=
  xs.foldl (fun q x => lpush x q) q

/-- The order in which a single worker repeatedly calling the blocking
dequeue receives the elements of a queue; `drain_blpop` below shows this
function is exactly the iteration of `blpop` to exhaustion. -/
def drain {α : Type} : List α → List α
  | [] => []
  | x :: xs => x :: drain xs

/-- Iterating `blpop` to exhaustion is `drain`. -/
theorem drain_blpop {α : Type} (q : List α) :
    drain q = (match blpop q with
               | none => []
               | some (x, rest) => x :: drain rest) := by
  cases q <;> simp [drain, blpop]

/-- Enqueueing with LPUSH prepends, so the queue holds the submissions in
reverse order on top of the previous contents. -/
theorem enqueue_all_eq {α : Type} (xs : List α) (q : List α) :
    enqueue_all xs q = xs.reverse ++ q := by
  induction xs generalizing q with
  | nil => simp [enqueue_all]
  | cons x xs ih =>
      simp only [enqueue_all, List.foldl_cons, List.reverse_cons, List.append_assoc] at *
      simp [lpush, ih (lpush x q), lpush]

/-- Draining returns the queue contents front to back. -/
theorem drain_eq {α : Type} (q : List α) : drain q = q := by
  induction q with
  | nil => rfl
  | cons x xs ih => simp [drain, ih]

/-! ### SHA-256 (`hashlib.sha256`), FIPS 180-4, over byte lists -/

/-- Reduction of a word to 32 bits. -/
def w32 (x : Nat) : Nat := x % 2 ^ 32

/-- Right rotation of a 32-bit word by `n` bits (for `x < 2 ^ 32`). -/
def rotr (n x : Nat) : Nat := x % 2 ^ n * 2 ^ (32 - n) + x / 2 ^ n

/-- Logical right shift by `n` bits. -/
def shr (n x : Nat) : Nat := x / 2 ^ n

/-- Message-schedule sigma-0. -/
def ssig0 (x : Nat) : Nat := rotr 7 x ^^^ rotr 18 x ^^^ shr 3 x

/-- Message-schedule sigma-1. -/
def ssig1 (x : Nat) : Nat := rotr 17 x ^^^ rotr 19 x ^^^ shr 10 x

/-- Compression Sigma-0. -/
def bsig0 (x : Nat) : Nat := rotr 2 x ^^^ rotr 13 x ^^^ rotr 22 x

/-- Compression Sigma-1. -/
def bsig1 (x : Nat) : Nat := rotr 6 x ^^^ rotr 11 x ^^^ rotr 25 x

/-- The 64 SHA-256 round constants (FIPS 180-4 §4.2.2, in decimal). -/
def sha256K : List Nat :=
  [1116352408, 1899447441, 3049323471, 3921009573, 961987163, 1508970993,
   2453635748, 2870763221, 3624381080, 310598401, 607225278, 1426881987,
   1925078388, 2162078206, 2614888103, 3248222580, 3835390401, 4022224774,
   264347078, 604807628, 770255983, 1249150122, 1555081692, 1996064986,
   2554220882, 2821834349, 2952996808, 3210313671, 3336571891, 3584528711,
   113926993, 338241895, 666307205, 773529912, 1294757372, 1396182291,
   1695183700, 1986661051, 2177026350, 2456956037, 2730485921, 2820302411,
   3259730800, 3345764771, 3516065817, 3600352804, 4094571909, 275423344,
   430227734, 506948616, 659060556, 883997877, 958139571, 1322822218,
   1537002063, 1747873779, 1955562222, 2024104815, 2227730452, 2361852424,
   2428436474, 2756734187, 3204031479, 3329325298]

/-- The eight 32-bit working variables of the compression function. -/
structure H8 where
  a : Nat
  b : Nat
  c : Nat
  d : Nat
  e : Nat
  f : Nat
  g : Nat
  h : Nat
deriving DecidableEq

/-- The SHA-256 initial hash value (FIPS 180-4 §5.3.3, in decimal). -/
def sha256H0 : H8 :=
  ⟨1779033703, 3144134277, 1013904242, 2773480762,
   1359893119, 2600822924, 528734635, 1541459225⟩

/-- The first sixteen 32-bit big-endian words of one 64-byte chunk. -/
def toWords (chunk : List Nat) : List Nat :=
  (List.range 16).map fun i =>
    w32 (chunk.getD (4 * i) 0 * 2 ^ 24 + chunk.getD (4 * i + 1) 0 * 2 ^ 16 +
         chunk.getD (4 * i + 2) 0 * 2 ^ 8 + chunk.getD (4 * i + 3) 0)

/-- Extension of the message schedule from 16 to 64 words. -/
def extendWords (ws : List Nat) : List Nat :=
  (List.range 48).foldl
    (fun acc _ =>
      let n := acc.length
      acc ++ [w32 (acc.getD (n - 16) 0 + ssig0 (acc.getD (n - 15) 0) +
                   acc.getD (n - 7) 0 + ssig1 (acc.getD (n - 2) 0))])
    ws

/-- One round of the SHA-256 compression function; `kw` pairs the round
constant with the schedule word. -/
def sha256Round (st : H8) (kw : Nat × Nat) : H8 :=
  let s1 := bsig1 st.e
  let ch := st.e &&& st.f ^^^ (st.e ^^^ 0xffffffff) &&& st.g
  let t1 := w32 (st.h + s1 + ch + kw.1 + kw.2)
  let s0 := bsig0 st.a
  let maj := st.a &&& st.b ^^^ st.a &&& st.c ^^^ st.b &&& st.c
  let t2 := w32 (s0 + maj)
  ⟨w32 (t1 + t2), st.a, st.b, st.c, w32 (st.d + t1), st.e, st.f, st.g⟩

/-- Compression of one 64-byte chunk into the running hash value. -/
def processChunk (hs : H8) (chunk : List Nat) : H8 :=
  let ws := extendWords (toWords chunk)
  let t := (sha256K.zip ws).foldl sha256Round hs
  ⟨w32 (hs.a + t.a), w32 (hs.b + t.b), w32 (hs.c + t.c), w32 (hs.d + t.d),
   w32 (hs.e + t.e), w32 (hs.f + t.f), w32 (hs.g + t.g), w32 (hs.h + t.h)⟩

/-- SHA-256 padding: a 0x80 byte, zeros to 56 mod 64, then the bit
length as eight big-endian bytes. -/
def padMessage (msg : List Nat) : List Nat :=
  let L := msg.length
  let z := (119 - L % 64) % 64
  msg ++ 0x80 :: List.replicate z 0 ++
    (List.range 8).map (fun i => L * 8 % 2 ^ 64 / 2 ^ (8 * (7 - i)) % 256)

/-- Split into 64-byte chunks; fuel-structured so it reduces in the
kernel (`fuel` bounds the number of chunks by the list length). -/
def chunks64Go : Nat → List Nat → List (List Nat)
  | 0, _ => []
  | _, [] => []
  | fuel + 1, x :: rest => ((x :: rest).take 64) :: chunks64Go fuel ((x :: rest).drop 64)

/-- Split a padded message into its 64-byte chunks. -/
def chunks64 (l : List Nat) : List (List Nat) := chunks64Go l.length l

/-- Big-endian bytes of a 32-bit word. -/
def wordBytes (x : Nat) : List Nat :=
  [x / 2 ^ 24 % 256, x / 2 ^ 16 % 256, x / 2 ^ 8 % 256, x % 256]

/-- The SHA-256 digest of a byte list, as the list of its 32 bytes. -/
def sha256 (msg : List Nat) : List Nat :=
  let t := (chunks64 (padMessage msg)).foldl processChunk sha256H0
  wordBytes t.a ++ wordBytes t.b ++ wordBytes t.c ++ wordBytes t.d ++
    wordBytes t.e ++ wordBytes t.f ++ wordBytes t.g ++ wordBytes t.h

/-- The sixteen lowercase hexadecimal digits, as Python prints them. -/
def hexChars : List Char := "0123456789abcdef".data

/-- One lowercase hexadecimal digit (for `n < 16`). -/
def hexDigit (n : Nat) : Char :=
  if n < 10 then Char.ofNat (48 + n) else Char.ofNat (87 + n)

/-- The two lowercase hex digits of one byte. -/
def byteToHex (b : Nat) : List Char := [hexDigit (b / 16), hexDigit (b % 16)]

/-- Python's `.hexdigest()` rendering of a digest as lowercase hex. -/
def hexdigest (bytes : List Nat) : List Char := bytes.flatMap byteToHex

/-- The content fingerprint, `rest-server.py` line 70:
`hashlib.sha256(mp3_data).hexdigest()[:56]`, as a character list. -/
def fingerprintChars (P : List Nat) : List Char := (hexdigest (sha256 P)).take 56

/-- The content fingerprint as a string. -/
def fingerprint (P : List Nat) : String := ⟨fingerprintChars P⟩

set_option maxRecDepth 100000

/-- Validation of the SHA-256 embedding against the FIPS 180-4 test
vector for the empty message. -/
theorem sha256_vector_empty :
    hexdigest (sha256 []) =
      "e3b0c44298fc1c149afbf4c8996fb92427ae41e4649b934ca495991b7852b855".data := by
  decide

/-- Validation of the SHA-256 embedding against the FIPS 180-4 test
vector for the message `"abc"`, truncated as the fingerprint is. -/
theorem sha256_vector_abc :
    fingerprintChars [97, 98, 99] =
      "ba7816bf8f01cfea414140de5dae2223b00361a396177a9cb410ff61".data := by
  decide

/-- The digest always has exactly 32 bytes. -/
theorem length_sha256 (msg : List Nat) : (sha256 msg).length = 32 := by
  simp [sha256, wordBytes]

/-- Every digest byte is below 256. -/
theorem sha256_lt_256 (msg : List Nat) : ∀ b ∈ sha256 msg, b < 256 := by
  intro b hb
  simp [sha256, wordBytes] at hb
  omega

/-- Hex rendering doubles the length. -/
theorem length_hexdigest (l : List Nat) : (hexdigest l).length = 2 * l.length := by
  induction l with
  | nil => rfl
  | cons b t ih =>
      simp [hexdigest, byteToHex] at *
      omega

/-- For digits below 16, `hexDigit` lands in the lowercase hex alphabet. -/
theorem hexDigit_mem : ∀ n < 16, hexDigit n ∈ hexChars := by decide

/-- All characters of the hex rendering of genuine bytes are lowercase
hex digits. -/
theorem mem_hexdigest {c : Char} {l : List Nat} (hl : ∀ b ∈ l, b < 256)
    (hc : c ∈ hexdigest l) : c ∈ hexChars := by
  simp only [hexdigest, List.mem_flatMap] at hc
  obtain ⟨b, hb, hcb⟩ := hc
  have hb256 := hl b hb
  simp only [byteToHex, List.mem_cons, List.mem_singleton, List.not_mem_nil, or_false] at hcb
  rcases hcb with h | h <;> subst h
  · exact hexDigit_mem _ (by omega)
  · exact hexDigit_mem _ (by omega)

/-! ### Ingestion service (`src/rest/rest-server.py`) -/

/-- The work descriptor built at `rest-server.py` line 78:
`work_item = \x7b'hash': songhash, 'model': model, 'callback': callback\x7d`. -/
structure WorkItem where
  hash : String
  model : String
  callback : Option String
deriving DecidableEq

/-- The `jsonpickle.encode` wire form of a work descriptor, the value
pushed on the `toWorker` list at line 79 (a JSON object literal). -/
def encodeWorkItem (w : WorkItem) : String :=
  "\x7b\"hash\": \"" ++ w.hash ++ "\", \"model\": \"" ++ w.model ++ "\", \"callback\": " ++
    (match w.callback with
     | none => "null"
     | some u => "\"" ++ u ++ "\"") ++ "\x7d"

/-- The JSON body of a POST to `/apiv1/separate` once parsed. The `mp3`
field carries the payload already base64-decoded (the handler validates
only the presence of the `'mp3'` key at line 64, then decodes; the empty
base64 text decodes to the empty byte string). A `none` field models the
key being absent from the JSON object. -/
structure SubmitData where
  mp3 : Option (List Nat)
  model : Option String
  callback : Option String
deriving DecidableEq

/-- A MinIO bucket as an association list, newest write first;
`lookupBlob` takes the first hit, so re-putting a key overwrites. -/
def putBlob (b : List (String × List Nat)) (k : String) (v : List Nat) :
    List (String × List Nat) := (k, v) :: b

/-- Lookup of an object in a bucket. -/
def lookupBlob (b : List (String × List Nat)) (k : String) : Option (List Nat) :=
  (b.find? (fun p => p.1 = k)).map Prod.snd

/-- MinIO `remove_object`: removes the key if present; deleting an
absent key is not an error (S3 DeleteObject semantics). -/
def removeBlob (b : List (String × List Nat)) (k : String) : List (String × List Nat) :=
  b.filter (fun p => p.1 ≠ k)

/-- The shared mutable state the REST server touches: the two MinIO
buckets and the Redis `toWorker` list. -/
structure RestState where
  queueBucket : List (String × List Nat)
  outputBucket : List (String × List Nat)
  toWorker : List String
deriving DecidableEq

/-- Availability of the backing stores: `putOk` — `put_object` succeeds;
`lpushOk` — `lpush` succeeds; `removeOk` — `remove_object` succeeds.
A `false` models the client call raising, which the `try/except` of each
handler turns into HTTP 500. -/
structure RestEnv where
  putOk : Bool
  lpushOk : Bool
  removeOk : Bool
deriving DecidableEq

/-- Store side effects of a REST handler, in program order. -/
inductive RestEffect where
  | putObject (bucket object : String) (content : List Nat)
  | pushWork (key value : String)
  | removeObject (bucket object : String)
deriving DecidableEq

/-- Replay of a trace of store effects over a state. -/
def applyRestEffects : RestState → List RestEffect → RestState
  | st, [] => st
  | st, .putObject b o c :: rest =>
      applyRestEffects (if b = "queue"
        then { st with queueBucket := putBlob st.queueBucket o c }
        else { st with outputBucket := putBlob st.outputBucket o c }) rest
  | st, .pushWork _ v :: rest =>
      applyRestEffects { st with toWorker := lpush v st.toWorker } rest
  | st, .removeObject b o :: rest =>
      applyRestEffects (if b = "queue"
        then { st with queueBucket := removeBlob st.queueBucket o }
        else { st with outputBucket := removeBlob st.outputBucket o }) rest

/-- Result of the `/apiv1/separate` handler: HTTP status, the hash
returned on success, the new store state, and the store-effect trace. -/
structure SepResult where
  status : Nat
  hash : Option String
  state : RestState
  trace : List RestEffect
deriving DecidableEq

/-- The POST `/apiv1/separate` handler (`rest-server.py` lines 60-85).
`data = none` models the line-64 guard `not data or 'mp3' not in data`
firing because the parsed body is falsy; `d.mp3 = none` models it firing
because the `'mp3'` key is absent. Otherwise the handler decodes, hashes,
stages the blob under `(songhash).mp3` in the `queue` bucket, then
pushes the encoded descriptor on `toWorker`; a raising store call is
caught by the surrounding `try/except` and answered with 500. -/
def separate (env : RestEnv) (st : RestState) (data : Option SubmitData) : SepResult :=
  match data with
  | none => ⟨400, none, st, []⟩
  | some d =>
    match d.mp3 with
    | none => ⟨400, none, st, []⟩
    | some mp3_data =>
      let model := d.model.getD "htdemucs"
      let songhash := fingerprint mp3_data
      if env.putOk then
        let st1 := { st with queueBucket := putBlob st.queueBucket (songhash ++ ".mp3") mp3_data }
        let wi : WorkItem := ⟨songhash, model, d.callback⟩
        if env.lpushOk then
          let st2 := { st1 with toWorker := lpush (encodeWorkItem wi) st1.toWorker }
          ⟨200, some songhash, st2,
            [.putObject "queue" (songhash ++ ".mp3") mp3_data,
             .pushWork "toWorker" (encodeWorkItem wi)]⟩
        else ⟨500, none, st1, [.putObject "queue" (songhash ++ ".mp3") mp3_data]⟩
      else ⟨500, none, st, []⟩

/-- The GET `/apiv1/remove/<songhash>/<track>` handler (lines 122-131):
an unconditional `remove_object` on the `output` bucket with no
existence check. -/
def remove_track (env : RestEnv) (st : RestState) (songhash track : String) :
    Nat × RestState × List RestEffect :=
  let object_name := songhash ++ "-" ++ track
  if env.removeOk then
    (200, { st with outputBucket := removeBlob st.outputBucket object_name },
     [RestEffect.removeObject "output" object_name])
  else (500, st, [])

/-! ### Worker (`src/worker/worker.py`) -/

/-- Local scratch directory for staged inputs, `worker.py` line 98. -/
def input_dir : String := "/tmp/input"

/-- Local scratch directory for engine outputs, line 99. -/
def output_dir : String := "/tmp/output"

/-- The four fixed track names, line 134. -/
def tracks : List String := ["bass.mp3", "drums.mp3", "vocals.mp3", "other.mp3"]

/-- The engine command line built at line 111:
`f"python3 -m demucs.separate --mp3 --out \x7boutput_dir\x7d \x7binput_file\x7d"`.
Note that the selected model is not part of the command. -/
def demucs_cmd (input_file : String) : String :=
  "python3 -m demucs.separate --mp3 --out " ++ output_dir ++ " " ++ input_file

/-- The external world as the worker observes it: `downloadOk` —
`fget_object` of this object from `queue` succeeds; `engineExit` — the
`os.system` exit status of this command; `globDirs` — the `glob.glob`
result for this pattern; `fileExists` — `os.path.exists` of this path;
`uploadOk` — `fput_object` of this object to `output` succeeds. -/
structure WorkerEnv where
  downloadOk : String → Bool
  engineExit : String → Nat
  globDirs : String → List String
  fileExists : String → Bool
  uploadOk : String → Bool

/-- Observable side effects of one worker job, in program order.
`upload` records an attempted `fput_object` (the local file existed);
whether the attempt succeeded is `uploadOk` of the environment. -/
inductive WEffect where
  | download (bucket object file : String)
  | engine (cmd : String)
  | upload (bucket object file : String)
  | rmFile (path : String)
  | rmDir (path : String)
  | callbackPost (url hash : String)
deriving DecidableEq

/-- Whether an effect is one of the two scratch-space cleanups of
lines 148-150. -/
def isCleanup : WEffect → Bool
  | .rmFile _ => true
  | .rmDir _ => true
  | _ => false

/-- Whether an effect is an attempted upload to the output bucket. -/
def isUpload : WEffect → Bool
  | .upload _ _ _ => true
  | _ => false

/-- Whether an effect is a callback POST. -/
def isCallbackPost : WEffect → Bool
  | .callbackPost _ _ => true
  | _ => false

/-- One iteration of the upload loop at lines 137-146: a missing local
track file clears the success flag and `continue`s; an attempted upload
that fails clears the success flag; either way the loop proceeds to the
next track. -/
def publishStep (env : WorkerEnv) (songhash d : String)
    (acc : Bool × List WEffect) (track : String) : Bool × List WEffect :=
  let track_path := d ++ "/" ++ track
  if env.fileExists track_path then
    let object_name := songhash ++ "-" ++ track
    (acc.1 && env.uploadOk object_name,
     acc.2 ++ [WEffect.upload "output" object_name track_path])
  else (false, acc.2)

/-- The publishing stage: the upload loop over the four fixed tracks,
starting from `upload_success = True` (line 135). -/
def publishTracks (env : WorkerEnv) (songhash d : String) : Bool × List WEffect :=
  tracks.foldl (publishStep env songhash d) (true, [])

set_option linter.unusedVariables false

/-- `separate_audio` (lines 95-155): stage the input from the `queue`
bucket; run the engine; on exit 0 locate the output directory by glob;
publish the four tracks; remove the scratch input file and the found
output directory. The early `return False`s of lines 106, 118 and 128
skip the cleanup, which is only reached once an output directory was
found. The `model` argument is accepted (line 95) but never used in the
engine command. -/
def separate_audio (env : WorkerEnv) (songhash : String) (model : String) :
    Bool × List WEffect :=
  let input_file := input_dir ++ "/" ++ songhash ++ ".mp3"
  if env.downloadOk (songhash ++ ".mp3") then
    let cmd := demucs_cmd input_file
    let e1 : List WEffect := [.download "queue" (songhash ++ ".mp3") input_file, .engine cmd]
    if env.engineExit cmd ≠ 0 then (false, e1)
    else
      match env.globDirs (output_dir ++ "/*/" ++ songhash) with
      | [] => (false, e1)
      | d :: _ =>
        let pub := publishTracks env songhash d
        (pub.1, e1 ++ pub.2 ++ [.rmFile (input_dir ++ "/" ++ songhash ++ ".mp3"), .rmDir d])
  else (false, [.download "queue" (songhash ++ ".mp3") input_file])

set_option linter.unusedVariables true

/-- Python interpolation of an optional field into an f-string:
a missing key retrieved by `work_item.get('hash')` is `None` and prints
as `"None"`. -/
def pyStr : Option String → String
  | none => "None"
  | some s => s

/-- The value `jsonpickle.decode` yields for one queue entry: either a
JSON object, whose fields `.get` retrieves (absent key → `none`), or a
non-object value, on which `work_item.get` raises `AttributeError`. -/
inductive QueueVal where
  | dict (hash model callback : Option String)
  | other
deriving DecidableEq

/-- The body of `process_work_item` (lines 167-182) before the `except`:
an `.error` is an exception escaping the body. A callback POST is sent
only when the job succeeded and the callback field is truthy (Python's
`if callback:` — `None` and the empty string are falsy). -/
def process_work_item_body (env : WorkerEnv) (v : QueueVal) :
    Except String (Bool × List WEffect) :=
  match v with
  | .other => .error "AttributeError"
  | .dict h m cb =>
    let songhash := pyStr h
    let model := m.getD "htdemucs"
    let r := separate_audio env songhash model
    if r.1 then
      match cb with
      | some url =>
          if url = "" then .ok (true, r.2)
          else .ok (true, r.2 ++ [.callbackPost url songhash])
      | none => .ok (true, r.2)
    else .ok (false, r.2)

/-- `process_work_item` (lines 166-185): the `try/except Exception`
turns any exception escaping the body into a logged `return False`. -/
def process_work_item (env : WorkerEnv) (v : QueueVal) : Bool × List WEffect :=
  match process_work_item_body env v with
  | .ok r => r
  | .error _ => (false, [])

/-- The worker's environment extended with the decoder for queue entries
(`jsonpickle.decode`, line 222, which may raise on malformed data). -/
structure LoopEnv extends WorkerEnv where
  decode : String → Except String QueueVal

/-- The main loop (lines 216-229), run for `fuel` iterations over the
`toWorker` list: each iteration blocks on `blpop`, decodes, processes;
any exception inside an iteration is caught at line 227 and the loop
continues with the next blocking dequeue. An iteration result is `none`
when the decode raised (the iteration was abandoned by the `except`),
otherwise the boolean `process_work_item` returned. Returns the
remaining queue and the per-iteration results. -/
def main_loop (env : LoopEnv) : Nat → List String → List String × List (Option Bool)
  | 0, q => (q, [])
  | _ + 1, [] => ([], [])
  | fuel + 1, x :: rest =>
    let r : Option Bool :=
      match env.decode x with
      | .error _ => none
      | .ok v => some (process_work_item env.toWorkerEnv v).1
    let next := main_loop env fuel rest
    (next.1, r :: next.2)

/-- Closed form of the upload loop: the final success flag is the
conjunction over all tracks of "local file present and upload
succeeded", and the attempted uploads are exactly the tracks whose local
file was present, in order, regardless of any earlier failure. -/
theorem publish_foldl (env : WorkerEnv) (songhash d : String) :
    ∀ (ts : List String) (b : Bool) (es : List WEffect),
      ts.foldl (publishStep env songhash d) (b, es) =
        (b && ts.all (fun t => env.fileExists (d ++ "/" ++ t) &&
                               env.uploadOk (songhash ++ "-" ++ t)),
         es ++ (ts.filter (fun t => env.fileExists (d ++ "/" ++ t))).map
           (fun t => WEffect.upload "output" (songhash ++ "-" ++ t) (d ++ "/" ++ t))) := by
  intro ts
  induction ts with
  | nil => intro b es; simp
  | cons t ts ih =>
      intro b es
      simp only [List.foldl_cons, publishStep, List.all_cons, List.filter_cons]
      by_cases hf : env.fileExists (d ++ "/" ++ t)
      · simp [hf, ih, Bool.and_assoc]
      · simp [hf, ih]

/-! ### Concrete environments used by witnesses and counterexamples -/

/-- A worker environment in which every external call succeeds and the
glob finds exactly one output directory. -/
def envAllOk : WorkerEnv :=
  ⟨fun _ => true, fun _ => 0, fun _ => ["/tmp/output/htdemucs/h"], fun _ => true, fun _ => true⟩

/-- A worker environment in which the staging download succeeds but the
engine exits with status 1. -/
def envEngineFail : WorkerEnv :=
  ⟨fun _ => true, fun _ => 1, fun _ => [], fun _ => false, fun _ => false⟩

/-- A REST environment with all backing stores up. -/
def restEnvOk : RestEnv := ⟨true, true, true⟩

/-- The empty store state. -/
def restState0 : RestState := ⟨[], [], []⟩

/-! ### Claims -/

/-- C1 counterexample: the producer enqueues with LPUSH and the worker
dequeues with BLPOP, both operating on the head of the Redis list, so
after enqueueing descriptors "d1" then "d2" the first blocking dequeue
receives "d2", not the first-enqueued "d1" — FIFO delivery fails. -/
theorem C1_counterexample :
    (blpop (enqueue_all ["d1", "d2"] ([] : List String))).map Prod.fst = some "d2" ∧
    ("d2" : String) ≠ "d1" := by
  exact ⟨rfl, by decide⟩

/-- C1 (amended): a single worker repeatedly calling the blocking
dequeue receives the descriptors in reverse order of enqueue (LIFO):
`lpush` inserts and `blpop` removes at the same end of the list, so the
durable list behaves as a stack, not a FIFO queue. -/
theorem C1_amended_lifo_order (xs : List String) :
    drain (enqueue_all xs []) = xs.reverse := by
  rw [drain_eq, enqueue_all_eq, List.append_nil]

/-- C6: the fingerprint (`sha256(P).hexdigest()[:56]`) of every byte
payload is a 56-character string over the lowercase hexadecimal
alphabet, and it is a deterministic function of the payload: identical
bytes always yield the identical fingerprint. -/
theorem C6_fingerprint_hex_deterministic (P Q : List Nat) :
    (fingerprint P).length = 56 ∧
    (∀ c ∈ (fingerprint P).data, c ∈ hexChars) ∧
    (P = Q → fingerprint P = fingerprint Q) := by
  refine ⟨?_, ?_, fun h => by rw [h]⟩
  · show (fingerprintChars P).length = 56
    rw [fingerprintChars, List.length_take, length_hexdigest, length_sha256]
    omega
  · intro c hc
    exact mem_hexdigest (sha256_lt_256 P) (List.mem_of_mem_take hc)

/-- Witness for C6 at the concrete payload `b"ID3"`. -/
theorem C6_witness :
    (fingerprint [73, 68, 51]).length = 56 ∧
    fingerprint [73, 68, 51] = fingerprint [73, 68, 51] :=
  ⟨(C6_fingerprint_hex_deterministic [73, 68, 51] [73, 68, 51]).1,
   (C6_fingerprint_hex_deterministic [73, 68, 51] [73, 68, 51]).2.2 rfl⟩

/-- C8: during publishing over the four fixed tracks, the final success
flag is true exactly when every track's local file was present and its
upload succeeded under key `(fingerprint)-(trackname)`; the attempted
uploads are exactly the tracks whose local file existed, in order, so a
missing file or a failed upload never stops the remaining uploads; and
when the pipeline reaches the publishing stage this flag is the job's
overall result. -/
theorem C8_publish_best_effort (env : WorkerEnv) (songhash d : String) :
    (publishTracks env songhash d).1 =
      tracks.all (fun t => env.fileExists (d ++ "/" ++ t) &&
                           env.uploadOk (songhash ++ "-" ++ t)) ∧
    (publishTracks env songhash d).2 =
      (tracks.filter (fun t => env.fileExists (d ++ "/" ++ t))).map
        (fun t => WEffect.upload "output" (songhash ++ "-" ++ t) (d ++ "/" ++ t)) ∧
    (∀ (m : String) (rest : List String),
       env.downloadOk (songhash ++ ".mp3") = true →
       env.engineExit (demucs_cmd (input_dir ++ "/" ++ songhash ++ ".mp3")) = 0 →
       env.globDirs (output_dir ++ "/*/" ++ songhash) = d :: rest →
       (separate_audio env songhash m).1 = (publishTracks env songhash d).1) := by
  have h := publish_foldl env songhash d tracks true []
  refine ⟨?_, ?_, ?_⟩
  · rw [publishTracks, h]; simp
  · rw [publishTracks, h]; simp
  · intro m rest hdl hex hglob
    simp [separate_audio, hdl, hex, hglob]

/-- Witness for C8 at a concrete all-up environment. -/
theorem C8_witness :
    (separate_audio envAllOk "h" "htdemucs").1 =
      (publishTracks envAllOk "h" "/tmp/output/htdemucs/h").1 :=
  (C8_publish_best_effort envAllOk "h" "/tmp/output/htdemucs/h").2.2 "htdemucs" [] rfl rfl rfl

/-- C9: when the blob store is reachable, the remove handler answers 200
for every fingerprint and track name and for every store state — in
particular whether or not the target object exists: no existence check
is performed and absence of the target is not an error. -/
theorem C9_remove_always_succeeds (env : RestEnv) (st : RestState) (songhash track : String)
    (hup : env.removeOk = true) :
    (remove_track env st songhash track).1 = 200 ∧
    (remove_track env st songhash track).2.1.outputBucket =
      removeBlob st.outputBucket (songhash ++ "-" ++ track) := by
  simp [remove_track, hup]

/-- Witness for C9: deleting a track that was never produced, from an
empty store, still answers 200. -/
theorem C9_witness :
    (remove_track restEnvOk restState0 "h" "bass.mp3").1 = 200 :=
  (C9_remove_always_succeeds restEnvOk restState0 "h" "bass.mp3" rfl).1

/-- C2 counterexample: a request whose `mp3` field carries the empty
byte string is not rejected: with the store up, the handler answers 200,
stages an (empty) blob under `(fingerprint).mp3` and appends a queue
entry — the line-64 guard tests only the presence of the key. -/
theorem C2_counterexample :
    (separate restEnvOk restState0 (some ⟨some [], none, none⟩)).status = 200 ∧
    lookupBlob (separate restEnvOk restState0 (some ⟨some [], none, none⟩)).state.queueBucket
      (fingerprint [] ++ ".mp3") = some [] ∧
    (separate restEnvOk restState0 (some ⟨some [], none, none⟩)).state.toWorker ≠ [] := by
  refine ⟨rfl, ?_, ?_⟩ <;> decide

/-- C2 (amended): the handler answers 400 with no side effect exactly
when the parsed body is falsy or lacks the `mp3` key; a present but
empty payload passes validation — with the store up it is hashed, its
(empty) blob staged, and a descriptor enqueued, answering 200. -/
theorem C2_amended_validation (env : RestEnv) (st : RestState) (mo cb : Option String) :
    (separate env st none = ⟨400, none, st, []⟩) ∧
    (separate env st (some ⟨none, mo, cb⟩) = ⟨400, none, st, []⟩) ∧
    (env.putOk = true → env.lpushOk = true →
      (separate env st (some ⟨some [], mo, cb⟩)).status = 200 ∧
      lookupBlob (separate env st (some ⟨some [], mo, cb⟩)).state.queueBucket
        (fingerprint [] ++ ".mp3") = some [] ∧
      (separate env st (some ⟨some [], mo, cb⟩)).state.toWorker =
        lpush (encodeWorkItem ⟨fingerprint [], mo.getD "htdemucs", cb⟩) st.toWorker) := by
  refine ⟨rfl, rfl, fun hput hpush => ?_⟩
  refine ⟨?_, ?_, ?_⟩ <;> simp [separate, hput, hpush, lookupBlob, putBlob, lpush]

/-- Witness for C2 (amended) at the empty store with the store up. -/
theorem C2_amended_witness :
    separate restEnvOk restState0 none = ⟨400, none, restState0, []⟩ ∧
    (separate restEnvOk restState0 (some ⟨some [], none, none⟩)).status = 200 :=
  ⟨(C2_amended_validation restEnvOk restState0 none none).1,
   ((C2_amended_validation restEnvOk restState0 none none).2.2 rfl rfl).1⟩

/-- C5: on a successful submit the store-effect trace is exactly "stage
the raw bytes under `(fingerprint).mp3` in the queue bucket, then push
the descriptor on `toWorker`" — the staging write strictly precedes the
enqueue, and replaying the trace up to (excluding) the push yields a
state in which the staged blob already exists, so a descriptor never
becomes visible before its blob. -/
theorem C5_stage_before_enqueue (env : RestEnv) (st : RestState)
    (bytes : List Nat) (mo cb : Option String)
    (hput : env.putOk = true) (hpush : env.lpushOk = true) :
    (separate env st (some ⟨some bytes, mo, cb⟩)).trace =
      [RestEffect.putObject "queue" (fingerprint bytes ++ ".mp3") bytes,
       RestEffect.pushWork "toWorker"
         (encodeWorkItem ⟨fingerprint bytes, mo.getD "htdemucs", cb⟩)] ∧
    lookupBlob (applyRestEffects st
        ((separate env st (some ⟨some bytes, mo, cb⟩)).trace.take 1)).queueBucket
      (fingerprint bytes ++ ".mp3") = some bytes := by
  constructor
  · simp [separate, hput, hpush]
  · simp [separate, hput, hpush, applyRestEffects, lookupBlob, putBlob]

/-- Witness for C5 at a concrete one-byte payload. -/
theorem C5_witness :
    (separate restEnvOk restState0 (some ⟨some [0], none, none⟩)).trace =
      [RestEffect.putObject "queue" (fingerprint [0] ++ ".mp3") [0],
       RestEffect.pushWork "toWorker"
         (encodeWorkItem ⟨fingerprint [0], "htdemucs", none⟩)] :=
  (C5_stage_before_enqueue restEnvOk restState0 [0] none none rfl rfl).1

/-- C3 counterexample: with an all-up environment, running the worker
pipeline for the same staged file under two different models produces
literally identical runs — including the identical engine invocation —
because the model is not part of the command line built at line 111. -/
theorem C3_counterexample :
    separate_audio envAllOk "h" "htdemucs" = separate_audio envAllOk "h" "mdx_extra" ∧
    ("htdemucs" : String) ≠ "mdx_extra" :=
  ⟨rfl, by decide⟩

/-- C3 (amended): the worker does invoke the engine as a separate
process with a command naming the local staged file path, but the model
selected in the descriptor is not passed: the whole run of
`separate_audio` is independent of the model argument, so descriptors
differing only in model lead to identical engine invocations. -/
theorem C3_amended_model_unused (env : WorkerEnv) (songhash m1 m2 : String)
    (hdl : env.downloadOk (songhash ++ ".mp3") = true) :
    separate_audio env songhash m1 = separate_audio env songhash m2 ∧
    WEffect.engine (demucs_cmd (input_dir ++ "/" ++ songhash ++ ".mp3"))
      ∈ (separate_audio env songhash m1).2 := by
  refine ⟨rfl, ?_⟩
  by_cases hex : env.engineExit (demucs_cmd (input_dir ++ "/" ++ songhash ++ ".mp3")) = 0
  · cases hglob : env.globDirs (output_dir ++ "/*/" ++ songhash) with
    | nil => simp [separate_audio, hdl, hex, hglob]
    | cons d ds => simp [separate_audio, hdl, hex, hglob]
  · simp [separate_audio, hdl, hex]

/-- Witness for C3 (amended): two concrete models, identical runs. -/
theorem C3_amended_witness :
    separate_audio envAllOk "h" "htdemucs" = separate_audio envAllOk "h" "mdx_extra_q" :=
  (C3_amended_model_unused envAllOk "h" "htdemucs" "mdx_extra_q" rfl).1

/-- C4 counterexample: with the staging download succeeding and the
engine exiting with status 1, the job fails at line 118 and
`separate_audio` returns with no cleanup effect at all — in particular
the downloaded scratch input file `/tmp/input/h.mp3` is not removed
before the worker returns to its loop. -/
theorem C4_counterexample :
    (separate_audio envEngineFail "h" "htdemucs").1 = false ∧
    ((separate_audio envEngineFail "h" "htdemucs").2.all fun e => !isCleanup e) = true ∧
    WEffect.download "queue" "h.mp3" "/tmp/input/h.mp3"
      ∈ (separate_audio envEngineFail "h" "htdemucs").2 := by
  refine ⟨rfl, rfl, by decide⟩

/-- C4 (amended): the scratch cleanup of lines 148-150 runs exactly when
the pipeline reached the publishing stage (staging succeeded, the engine
exited 0, and an output directory was found): then both the scratch
input file and the found output directory are removed regardless of
publish success or failure; on a staging failure, a non-zero engine exit
or a missing output directory the function returns early with no
cleanup. -/
theorem C4_amended_cleanup (env : WorkerEnv) (songhash m : String) :
    (∀ d rest,
       env.downloadOk (songhash ++ ".mp3") = true →
       env.engineExit (demucs_cmd (input_dir ++ "/" ++ songhash ++ ".mp3")) = 0 →
       env.globDirs (output_dir ++ "/*/" ++ songhash) = d :: rest →
       WEffect.rmFile (input_dir ++ "/" ++ songhash ++ ".mp3")
           ∈ (separate_audio env songhash m).2 ∧
       WEffect.rmDir d ∈ (separate_audio env songhash m).2) ∧
    ((env.downloadOk (songhash ++ ".mp3") = false ∨
      env.engineExit (demucs_cmd (input_dir ++ "/" ++ songhash ++ ".mp3")) ≠ 0 ∨
      env.globDirs (output_dir ++ "/*/" ++ songhash) = []) →
     ∀ e ∈ (separate_audio env songhash m).2, isCleanup e = false) := by
  constructor
  · intro d rest hdl hex hglob
    simp [separate_audio, hdl, hex, hglob]
  · intro hfail e he
    by_cases hdl : env.downloadOk (songhash ++ ".mp3") = true
    · by_cases hex : env.engineExit (demucs_cmd (input_dir ++ "/" ++ songhash ++ ".mp3")) = 0
      · have hglob : env.globDirs (output_dir ++ "/*/" ++ songhash) = [] := by
          rcases hfail with h | h | h
          · rw [hdl] at h; cases h
          · exact absurd hex h
          · exact h
        simp [separate_audio, hdl, hex, hglob] at he
        rcases he with h | h <;> subst h <;> rfl
      · simp [separate_audio, hdl, hex] at he
        rcases he with h | h <;> subst h <;> rfl
    · simp [separate_audio, hdl] at he
      subst he; rfl

/-- Witness for C4 (amended): in the all-up environment the input file
removal is in the trace. -/
theorem C4_amended_witness :
    WEffect.rmFile "/tmp/input/h.mp3" ∈ (separate_audio envAllOk "h" "htdemucs").2 :=
  ((C4_amended_cleanup envAllOk "h" "htdemucs").1 "/tmp/output/htdemucs/h" [] rfl rfl rfl).1

/-- C7: when the staging download succeeded and the engine invocation
exits non-zero, the job's trace contains no upload to the output bucket
and no callback POST — even when the descriptor carried a callback
URL. -/
theorem C7_engine_failure_no_outputs (env : WorkerEnv) (h m : Option String) (url : String)
    (hdl : env.downloadOk (pyStr h ++ ".mp3") = true)
    (hex : env.engineExit (demucs_cmd (input_dir ++ "/" ++ pyStr h ++ ".mp3")) ≠ 0) :
    ∀ e ∈ (process_work_item env (QueueVal.dict h m (some url))).2,
      isUpload e = false ∧ isCallbackPost e = false := by
  intro e he
  simp [process_work_item, process_work_item_body, separate_audio, hdl, hex] at he
  rcases he with h1 | h1 <;> subst h1 <;> exact ⟨rfl, rfl⟩

/-- Witness for C7 at the engine-failing environment with a callback
URL supplied. -/
theorem C7_witness :
    isUpload (WEffect.engine (demucs_cmd "/tmp/input/h.mp3")) = false ∧
    isCallbackPost (WEffect.engine (demucs_cmd "/tmp/input/h.mp3")) = false :=
  C7_engine_failure_no_outputs envEngineFail (some "h") (some "htdemucs") "http://cb" rfl
    (by decide) (WEffect.engine (demucs_cmd "/tmp/input/h.mp3")) (by decide)

/-- C10: `process_work_item` is total — the `except` of lines 183-185
turns a raising body (for example `.get` on a non-dict work item) into
`return False` instead of propagating — and the main loop consumes
exactly one queue entry per iteration and keeps iterating whatever the
entry contained: over any queue it performs `min fuel (length)`
iterations and is left with the corresponding queue suffix, whether the
entries were well-formed, missing fields, or undecodable. -/
theorem C10_worker_total (env : LoopEnv) (fuel : Nat) (q : List String) :
    (main_loop env fuel q).2.length = min fuel q.length ∧
    (main_loop env fuel q).1 = q.drop fuel ∧
    process_work_item env.toWorkerEnv QueueVal.other = (false, []) := by
  refine ⟨?_, ?_, rfl⟩
  · induction fuel generalizing q with
    | zero => simp [main_loop]
    | succ n ih =>
        cases q with
        | nil => simp [main_loop]
        | cons x rest =>
            simp [main_loop, ih]
            omega
  · induction fuel generalizing q with
    | zero => simp [main_loop]
    | succ n ih =>
        cases q with
        | nil => simp [main_loop]
        | cons x rest => simp [main_loop, ih]
